import Mathlib

/-!
Verification development for the GLOM Auth API (src/index.js).

The program is an Express HTTP service with a single interesting route,
`POST /login`, backed by a JSON file `users.json`.  The embedding below
translates the decision logic of that route and its two storage helpers
(`loadUsers`, `saveUsers`) into Lean.

Modelling conventions:
* Request fields come from `req.body || {}` (JSON parsed by `express.json()`),
  so each destructured field is an arbitrary JSON value or `undefined`.
  `JVal` covers exactly those values (integers stand in for JS numbers; the
  claims never involve non-integer numerics).
* The user store, when well formed, is a list of records with string
  `username`/`password` and an optional string `hwid` (absent field ↦ `none`).
* File-system effects are made explicit: the durable file is a `FileState`,
  and `saveUsers` success/failure is a boolean parameter `persistOk`.  A
  failed `fs.writeFileSync` is modelled as leaving the durable content
  unchanged (the persistence contract treats the write as atomic).
* JS string `.trim()` is modelled by `jsTrim`, dropping ASCII whitespace from
  both ends, matching what the claims exercise.
-/

namespace GlomAuth

/-- JavaScript values as they can reach the login handler: the result of JSON
parsing plus `undefined` for absent fields. -/
inductive JVal where
  | undef
  | jnull
  | jbool (b : Bool)
  | jnum (n : Int)
  | jstr (s : String)
  | jarr (elems : List JVal)
  | jobj (fields : List (String × JVal))

/-- The empty string, named so that every string literal in the file sits in
its own definition. -/
def emptyStr : String := ""

/-- JavaScript truthiness: `undefined`, `null`, `false`, `0` and the empty
string are falsy; every other value (including objects and arrays) is truthy. -/
def truthy : JVal → Bool
  | .undef => false
  | .jnull => false
  | .jbool b => b
  | .jnum n => n != 0
  | .jstr s => s != emptyStr
  | .jarr _ => true
  | .jobj _ => true

/-- Strict equality `v === s` between a JS value and a known string: true
exactly when `v` is that string.  (For any non-string `v`, `===` against a
string is false — no coercion; objects compare by reference and the two sides
here always come from different parses.) -/
def jsEqStr (v : JVal) (s : String) : Bool :=
  match v with
  | .jstr t => t == s
  | _ => false

/-- The underlying string of a JS string value (only ever used after a
`typeof v === "string"` guard has succeeded). -/
def asStr : JVal → String
  | .jstr s => s
  | _ => emptyStr

/-- ASCII whitespace, the fragment of the `String.prototype.trim` whitespace
class that the program's data can contain. -/
def isWsChar (c : Char) : Bool :=
  c == ' ' || c == '\t' || c == '\n' || c == '\r' || c == '\x0b' || c == '\x0c'

/-- Model of JS `s.trim()`: drop whitespace from both ends. -/
def jsTrim (s : String) : String :=
  ⟨((s.data.dropWhile isWsChar).reverse.dropWhile isWsChar).reverse⟩

/-- The step-2 guard of the handler:
`!hwid || typeof hwid !== "string" || hwid.trim().length === 0`.
Every non-string satisfies one of the first two disjuncts; for a string `s`,
`!s` implies `s.trim().length === 0`, so the whole test collapses to
"not a string whose trim is non-empty". -/
def hwidBad : JVal → Bool
  | .jstr s => (jsTrim s).length == 0
  | _ => true

/-- One account record of `users.json` (well-formed store).  `hwid = none`
models an absent `hwid` field. -/
structure UserRecord where
  username : String
  password : String
  hwid : Option String
deriving DecidableEq, Repr

/-- The parsed store object `{ users: [...] }` in its well-formed shape. -/
structure Store where
  users : List UserRecord
deriving DecidableEq, Repr

/-- A login request body after destructuring `{ username, password, hwid }`. -/
structure LoginReq where
  username : JVal
  password : JVal
  hwid : JVal

/-- The seven response codes the handler can produce. -/
inductive Code where
  | MISSING_FIELDS
  | HWID_REQUIRED
  | INVALID_CREDENTIALS
  | HWID_REGISTERED
  | HWID_MISMATCH
  | OK
  | SERVER_ERROR
deriving DecidableEq, Repr

/-- The step-4 guard on the stored value:
`!user.hwid || user.hwid.trim().length === 0` — the record's hwid is absent,
empty, or whitespace-only ("blank"). -/
def hwidBlank : Option String → Bool
  | none => true
  | some s => (jsTrim s).length == 0

/-- The in-place mutation `user.hwid = hwid` seen at the store level: `user`
is the object `find` returned, i.e. the first record whose `username` strictly
equals the request's `username`; that record's `hwid` field is replaced. -/
def setHwid (users : List UserRecord) (username : JVal) (h : String) :
    List UserRecord :=
  match users with
  | [] => []
  | u :: rest =>
    if jsEqStr username u.username then { u with hwid := some h } :: rest
    else u :: setHwid rest username h

/-- The `POST /login` handler of src/index.js over a well-formed store.
`persistOk` is the success of `saveUsers` (`fs.writeFileSync`); on failure the
durable store keeps its prior content and the handler answers `SERVER_ERROR`.
The returned store is the durable content after the request. -/
def login (store : Store) (persistOk : Bool) (req : LoginReq) : Code × Store :=
  if !truthy req.username || !truthy req.password then
    (Code.MISSING_FIELDS, store)
  else if hwidBad req.hwid then
    (Code.HWID_REQUIRED, store)
  else
    match store.users.find? (fun u => jsEqStr req.username u.username) with
    | none => (Code.INVALID_CREDENTIALS, store)
    | some user =>
      if !jsEqStr req.password user.password then
        (Code.INVALID_CREDENTIALS, store)
      else if hwidBlank user.hwid then
        if persistOk then
          (Code.HWID_REGISTERED, ⟨setHwid store.users req.username (asStr req.hwid)⟩)
        else
          (Code.SERVER_ERROR, store)
      else if user.hwid != some (asStr req.hwid) then
        (Code.HWID_MISMATCH, store)
      else
        (Code.OK, store)

/-- State of the backing file `users.json`: absent, present but unparsable
(`JSON.parse` throws), or present and parsing to a JSON value. -/
inductive FileState where
  | absent
  | corrupt
  | json (v : JVal)

/-- The key of the top-level user collection in `users.json`. -/
def usersKey : String := "users"

/-- The fallback value `{ users: [] }` that `loadUsers` builds itself. -/
def emptyData : JVal := JVal.jobj [(usersKey, JVal.jarr [])]

/-- `loadUsers` of src/index.js: absent file ↦ `{ users: [] }`; unparsable
file ↦ the parse error is caught, logged with `console.error`, and the same
empty object is returned (the function never throws); otherwise the parsed
value is returned as-is, unchecked. -/
def loadUsers : FileState → JVal
  | .absent => emptyData
  | .corrupt => emptyData
  | .json v => v

/-- Property lookup in a parsed JSON object.  `JSON.parse` output has unique
keys (duplicates collapse, last wins), so first-match lookup is exact on the
values this function is applied to. -/
def lookupField : List (String × JVal) → String → Option JVal
  | [], _ => none
  | (k, v) :: rest, key => if k == key then some v else lookupField rest key

/-- Whether `data.users` is an array, and which one: models the applicability
of `data.users.find(...)`.  `none` covers every way the expression throws a
`TypeError` at runtime — `data` is `null` (property access throws), `data` is
a non-object or lacks `users` (`.find` on `undefined`), or `data.users` is a
non-array (`.find` is not a function). -/
def usersOf : JVal → Option (List JVal)
  | .jobj fields =>
    match lookupField fields usersKey with
    | some (.jarr xs) => some xs
    | _ => none
  | _ => none

/-- The handler's step-3 entry `data.users.find(...)` as a fallible step:
`Except.error ()` is a thrown `TypeError`, `Except.ok xs` means the lookup can
proceed over the array `xs`. -/
def lookupStep (data : JVal) : Except Unit (List JVal) :=
  match usersOf data with
  | none => Except.error ()
  | some xs => Except.ok xs

/-- Run a sequence of login requests, each with its own persist outcome,
threading the durable store. -/
def runLogins (store : Store) : List (Bool × LoginReq) → Store
  | [] => store
  | (p, req) :: rest => runLogins (login store p req).2 rest

/-- Iterate one fixed request `n` times, threading the store. -/
def iterateLogin (p : Bool) (req : LoginReq) : Nat → Store → Store
  | 0, s => s
  | n + 1, s => iterateLogin p req n (login s p req).2

/-- Following the spec's words for step 1 of §4.2: the field is absent or the
empty string. -/
def absentOrEmpty (v : JVal) : Bool :=
  match v with
  | .undef => true
  | .jstr s => s == emptyStr
  | _ => false

/-- The record the spec's step 3 speaks about: the (first) record whose
username strictly equals the request's username. -/
def matchingUser (store : Store) (username : JVal) : Option UserRecord :=
  store.users.find? (fun u => jsEqStr username u.username)

/-- Following the spec's words for step 4 of §4.2 read literally: "the
record's hwid is empty" — absent or the empty string, with no trimming
(the spec confines trimming to step 2). -/
def specEmptyHwid (h : Option String) : Bool :=
  match h with
  | none => true
  | some s => s == emptyStr

/-- Steps 2–6 of the §4.2 decision table read literally: step 4 fires on an
absent-or-empty stored hwid (`specEmptyHwid`), untrimmed.  Persistence is
assumed to succeed, so step 4 yields `HWID_REGISTERED`. -/
def specDecisionTail (store : Store) (req : LoginReq) : Code :=
  if hwidBad req.hwid then Code.HWID_REQUIRED
  else
    match matchingUser store req.username with
    | none => Code.INVALID_CREDENTIALS
    | some u =>
      if !jsEqStr req.password u.password then Code.INVALID_CREDENTIALS
      else if specEmptyHwid u.hwid then Code.HWID_REGISTERED
      else if u.hwid != some (asStr req.hwid) then Code.HWID_MISMATCH
      else Code.OK

/-- Steps 2–6 of the §4.2 decision table with step 4 amended to the code's
blank test: step 4 fires when the stored hwid is blank — absent, empty, or
whitespace-only after trimming (`hwidBlank`) — and step 5 compares the
(then non-blank) stored hwid with the supplied one. -/
def amendedDecisionTail (store : Store) (req : LoginReq) : Code :=
  if hwidBad req.hwid then Code.HWID_REQUIRED
  else
    match matchingUser store req.username with
    | none => Code.INVALID_CREDENTIALS
    | some u =>
      if !jsEqStr req.password u.password then Code.INVALID_CREDENTIALS
      else if hwidBlank u.hwid then Code.HWID_REGISTERED
      else if u.hwid != some (asStr req.hwid) then Code.HWID_MISMATCH
      else Code.OK

/-- The §4.2 decision table read literally: step 1 fires exactly when
`username` or `password` is absent or empty, and step 4 exactly when the
stored hwid is absent or empty (untrimmed). -/
def specOutcome (store : Store) (req : LoginReq) : Code :=
  if absentOrEmpty req.username || absentOrEmpty req.password then
    Code.MISSING_FIELDS
  else specDecisionTail store req

/-- The §4.2 decision table with the two amendments the code forces: step 1
fires exactly when `username` or `password` is falsy (absent, empty, `null`,
`false`, or `0`), and step 4 exactly when the stored hwid is blank (absent,
empty, or whitespace-only after trimming). -/
def specOutcomeAmended (store : Store) (req : LoginReq) : Code :=
  if !truthy req.username || !truthy req.password then Code.MISSING_FIELDS
  else amendedDecisionTail store req

/-- How one login request may change one record: a record whose hwid is
non-blank is untouched, and a record that does change had a blank hwid, ends
with a non-blank one, and keeps its username and password. -/
def HwidStep (u v : UserRecord) : Prop :=
  (hwidBlank u.hwid = false → v = u) ∧
  (v = u ∨
    (hwidBlank u.hwid = true ∧ hwidBlank v.hwid = false ∧
      v.username = u.username ∧ v.password = u.password))

/-- Sample username from the spec's worked example (§8). -/
def aliceName : String := "alice"

/-- Sample password from the spec's worked example (§8). -/
def alicePass : String := "p1"

/-- Sample device id from the spec's worked example (§8). -/
def dev1 : String := "DEV-1"

/-- Second sample device id from the spec's worked example (§8). -/
def dev2 : String := "DEV-2"

/-- A non-empty, whitespace-only string. -/
def blankStr : String := " "

/-- A wrong password for negative examples. -/
def wrongPass : String := "wrong"

/-- A string of length zero is the empty string. -/
theorem length_zero_eq_empty (s : String) (h : s.length = 0) : s = emptyStr := by
  obtain ⟨d⟩ := s
  have hd : d = [] := List.length_eq_zero.mp h
  subst hd
  rfl

/-- Every branch of `login` either leaves the store untouched or is the
successful registration branch, whose store is the `setHwid` update. -/
theorem login_store_cases (s : Store) (p : Bool) (req : LoginReq) :
    (login s p req).2 = s ∨
      ((login s p req).1 = Code.HWID_REGISTERED ∧
        (login s p req).2 = ⟨setHwid s.users req.username (asStr req.hwid)⟩) := by
  unfold login
  repeat' split
  all_goals first
    | exact Or.inl rfl
    | exact Or.inr ⟨rfl, rfl⟩

/-- The handler answers `MISSING_FIELDS` exactly when the step-1 guard
`!username || !password` fires. -/
theorem login_missing_iff (s : Store) (p : Bool) (req : LoginReq) :
    (login s p req).1 = Code.MISSING_FIELDS ↔
      (!truthy req.username || !truthy req.password) = true := by
  constructor
  · intro h
    by_contra hc
    revert h
    unfold login
    rw [if_neg hc]
    repeat' split
    all_goals simp
  · intro h
    unfold login
    rw [if_pos h]

/-- A request that fails step 1 gets `MISSING_FIELDS` against every store and
every persist outcome, and the store is returned untouched: the store is
never consulted. -/
theorem login_missing_const (req : LoginReq)
    (h : (!truthy req.username || !truthy req.password) = true)
    (s : Store) (p : Bool) : login s p req = (Code.MISSING_FIELDS, s) := by
  unfold login
  rw [if_pos h]

/-- A request that reaches step 4 (guards passed, first matching record
found, password equal, stored hwid blank) takes the registration branch:
with a successful persist it registers, with a failed persist it reports
`SERVER_ERROR` and the durable store keeps its prior content. -/
theorem login_register_eq (s : Store) (p : Bool) (req : LoginReq)
    (u : UserRecord)
    (h1 : truthy req.username = true) (h2 : truthy req.password = true)
    (h3 : hwidBad req.hwid = false)
    (h4 : s.users.find? (fun r => jsEqStr req.username r.username) = some u)
    (h5 : jsEqStr req.password u.password = true)
    (h6 : hwidBlank u.hwid = true) :
    login s p req =
      if p then
        (Code.HWID_REGISTERED, ⟨setHwid s.users req.username (asStr req.hwid)⟩)
      else (Code.SERVER_ERROR, s) := by
  unfold login
  rw [h4]
  simp [h1, h2, h3, h5, h6]

/-- A request whose outcome is `OK` has hit the final branch: its outcome
does not depend on the persist flag and the store is returned untouched. -/
theorem login_ok_const (s : Store) (p : Bool) (req : LoginReq)
    (h : (login s p req).1 = Code.OK) (p' : Bool) :
    login s p' req = (Code.OK, s) := by
  revert h
  unfold login
  repeat' split
  all_goals simp_all

/-- `setHwid` rewrites exactly the record `find?` returns: afterwards the
lookup for the same username yields that record with its hwid replaced. -/
theorem find?_setHwid (users : List UserRecord) (username : JVal) (h : String)
    (u : UserRecord)
    (hfind : users.find? (fun r => jsEqStr username r.username) = some u) :
    (setHwid users username h).find? (fun r => jsEqStr username r.username)
      = some { u with hwid := some h } := by
  induction users with
  | nil => simp [List.find?] at hfind
  | cons a rest ih =>
    cases hb : jsEqStr username a.username with
    | true =>
      simp only [List.find?, hb] at hfind
      obtain rfl : a = u := Option.some.inj hfind
      simp [setHwid, hb, List.find?]
    | false =>
      simp only [List.find?, hb] at hfind
      simp only [setHwid, hb, Bool.false_eq_true, if_false]
      simp only [List.find?, hb]
      exact ih hfind

/-- In a store satisfying the data-model invariant (at most one record per
username), membership of a record determines the result of the handler's
`find` for that record's username. -/
theorem find?_of_mem_uniq (users : List UserRecord) (r : UserRecord)
    (hmem : r ∈ users)
    (huniq : users.Pairwise (fun a b => a.username ≠ b.username)) :
    users.find? (fun u => jsEqStr (JVal.jstr r.username) u.username) = some r := by
  induction users with
  | nil => cases hmem
  | cons a rest ih =>
    rcases List.mem_cons.mp hmem with rfl | hmem'
    · exact List.find?_cons_of_pos _ (by simp [jsEqStr])
    · have hne : a.username ≠ r.username :=
        (List.pairwise_cons.mp huniq).1 r hmem'
      have hpa : jsEqStr (JVal.jstr r.username) a.username = false := by
        simp only [jsEqStr, beq_eq_false_iff_ne, ne_eq]
        exact fun e => hne e.symm
      simp only [List.find?, hpa]
      exact ih hmem' (List.pairwise_cons.mp huniq).2

/-- A request hwid that passes the step-2 guard is, once stored, not blank. -/
theorem hwidBlank_of_not_bad (v : JVal) (h : hwidBad v = false) :
    hwidBlank (some (asStr v)) = false := by
  cases v
  case jstr s =>
    simp only [hwidBad] at h
    simpa [hwidBlank, asStr] using h
  all_goals simp [hwidBad] at h

/-- `HwidStep` is reflexive: an untouched record is a legal evolution. -/
theorem hwidStep_refl (u : UserRecord) : HwidStep u u :=
  ⟨fun _ => rfl, Or.inl rfl⟩

/-- An unchanged list is a legal `HwidStep` evolution. -/
theorem forall2_hwidStep_refl (l : List UserRecord) :
    List.Forall₂ HwidStep l l :=
  List.forall₂_same.mpr fun u _ => hwidStep_refl u

/-- `HwidStep` composes: two legal evolutions in sequence are one. -/
theorem hwidStep_trans (a b c : UserRecord)
    (h : HwidStep a b) (g : HwidStep b c) : HwidStep a c := by
  obtain ⟨h1, h2⟩ := h
  obtain ⟨g1, g2⟩ := g
  constructor
  · intro hnb
    have hb : b = a := h1 hnb
    subst hb
    exact g1 hnb
  · rcases h2 with rfl | ⟨hb, hnb, hu, hp⟩
    · exact g2
    · rcases g2 with rfl | ⟨hb2, hnc, hu2, hp2⟩
      · exact Or.inr ⟨hb, hnb, hu, hp⟩
      · rw [hnb] at hb2
        cases hb2

/-- Pointwise composition of `HwidStep` evolutions of whole stores. -/
theorem forall2_hwidStep_trans (a b c : List UserRecord)
    (hab : List.Forall₂ HwidStep a b) (hbc : List.Forall₂ HwidStep b c) :
    List.Forall₂ HwidStep a c := by
  induction hab generalizing c with
  | nil =>
    cases hbc
    exact List.Forall₂.nil
  | cons hR hrest ih =>
    cases hbc with
    | cons hR2 hrest2 =>
      exact List.Forall₂.cons (hwidStep_trans _ _ _ hR hR2) (ih _ hrest2)

/-- The registration update is a legal `HwidStep` evolution, provided the
record being rewritten (the one `find?` returns) had a blank hwid and the
incoming value is non-blank. -/
theorem setHwid_forall2 (users : List UserRecord) (username : JVal)
    (hNew : String) (u : UserRecord)
    (hfind : users.find? (fun r => jsEqStr username r.username) = some u)
    (hblank : hwidBlank u.hwid = true)
    (hnb : hwidBlank (some hNew) = false) :
    List.Forall₂ HwidStep users (setHwid users username hNew) := by
  induction users with
  | nil => exact List.Forall₂.nil
  | cons a rest ih =>
    cases hb : jsEqStr username a.username with
    | true =>
      simp only [List.find?, hb] at hfind
      obtain rfl : a = u := Option.some.inj hfind
      simp only [setHwid, hb, if_true]
      refine List.Forall₂.cons ?_ (forall2_hwidStep_refl rest)
      constructor
      · intro hf
        rw [hf] at hblank
        cases hblank
      · exact Or.inr ⟨hblank, hnb, rfl, rfl⟩
    | false =>
      simp only [List.find?, hb] at hfind
      simp only [setHwid, hb, Bool.false_eq_true, if_false]
      exact List.Forall₂.cons (hwidStep_refl a) (ih hfind)

/-- One login request is a legal `HwidStep` evolution of the store. -/
theorem login_hwidStep (s : Store) (p : Bool) (req : LoginReq) :
    List.Forall₂ HwidStep s.users (login s p req).2.users := by
  unfold login
  repeat' split
  all_goals first
    | exact forall2_hwidStep_refl _
    | skip
  next hA hB x user hfind hC hD hE =>
    exact setHwid_forall2 s.users req.username (asStr req.hwid) user hfind hD
      (hwidBlank_of_not_bad req.hwid (by simpa using hB))

/-- Any sequence of login requests is a legal `HwidStep` evolution. -/
theorem runLogins_hwidStep (s : Store) (ops : List (Bool × LoginReq)) :
    List.Forall₂ HwidStep s.users (runLogins s ops).users := by
  induction ops generalizing s with
  | nil => exact forall2_hwidStep_refl s.users
  | cons op rest ih =>
    obtain ⟨p, req⟩ := op
    exact forall2_hwidStep_trans _ _ _ (login_hwidStep s p req)
      (ih (login s p req).2)

/-- C1 (amended): for every request and store, with persistence succeeding,
the handler returns the single code given by the first matching rule of the
§4.2 decision order, with two rules reworded to what the code tests: step 1
fires exactly when username or password is falsy (absent, empty, `null`,
`false`, or `0`) rather than only absent/empty, and step 4 fires exactly when
the record's stored hwid is blank (absent, empty, or whitespace-only after
trimming) rather than only absent/empty, step 5 then comparing the non-blank
stored hwid with the supplied one. -/
theorem login_follows_decision_order (s : Store) (req : LoginReq) :
    (login s true req).1 = specOutcomeAmended s req := by
  unfold login specOutcomeAmended amendedDecisionTail matchingUser
  repeat' split
  all_goals simp_all

/-- C1 counterexample: the literal reading of the §4.2 rules disagrees with
the handler at two rules.  Step 1: on `{username: 0, password: "p1",
hwid: "DEV-1"}` the rules pick `INVALID_CREDENTIALS` (the number `0` is
neither absent nor empty, and no record matches it), while the code's
`!username` guard fires and it answers `MISSING_FIELDS`.  Step 4: on the
store `[{alice, p1, hwid: " "}]` with request `{alice, p1, "DEV-1"}` the
rules pick `HWID_MISMATCH` (the stored `" "` is not empty and differs from
`"DEV-1"`), while the code's trim-based blank test fires and it registers. -/
theorem login_decision_order_cex :
    (specOutcome ⟨[]⟩ ⟨JVal.jnum 0, JVal.jstr alicePass, JVal.jstr dev1⟩
        = Code.INVALID_CREDENTIALS ∧
      (login ⟨[]⟩ true ⟨JVal.jnum 0, JVal.jstr alicePass, JVal.jstr dev1⟩).1
        = Code.MISSING_FIELDS ∧
      Code.INVALID_CREDENTIALS ≠ Code.MISSING_FIELDS) ∧
    (specOutcome ⟨[⟨aliceName, alicePass, some blankStr⟩]⟩
          ⟨JVal.jstr aliceName, JVal.jstr alicePass, JVal.jstr dev1⟩
        = Code.HWID_MISMATCH ∧
      (login ⟨[⟨aliceName, alicePass, some blankStr⟩]⟩ true
          ⟨JVal.jstr aliceName, JVal.jstr alicePass, JVal.jstr dev1⟩).1
        = Code.HWID_REGISTERED ∧
      Code.HWID_MISMATCH ≠ Code.HWID_REGISTERED) := by
  decide

/-- C2 (amended): for an account record with no stored HWID whose username
and password are non-empty, a login carrying that record's exact username and
password and an hwid that is non-empty after trimming returns
`HWID_REGISTERED`, and the resulting store holds, for that username, the
record with its hwid equal to the supplied value — the original untrimmed
string. -/
theorem first_login_registers (s : Store) (r : UserRecord) (hw : String)
    (hmem : r ∈ s.users)
    (huniq : s.users.Pairwise (fun a b => a.username ≠ b.username))
    (hune : r.username ≠ emptyStr) (hpne : r.password ≠ emptyStr)
    (hhb : r.hwid = none ∨ r.hwid = some emptyStr)
    (hw1 : jsTrim hw ≠ emptyStr) :
    login s true ⟨JVal.jstr r.username, JVal.jstr r.password, JVal.jstr hw⟩
        = (Code.HWID_REGISTERED, ⟨setHwid s.users (JVal.jstr r.username) hw⟩) ∧
      matchingUser ⟨setHwid s.users (JVal.jstr r.username) hw⟩
          (JVal.jstr r.username) = some { r with hwid := some hw } := by
  have hfind := find?_of_mem_uniq s.users r hmem huniq
  have h1 : truthy (JVal.jstr r.username) = true := by
    simp [truthy, hune]
  have h2 : truthy (JVal.jstr r.password) = true := by
    simp [truthy, hpne]
  have h3 : hwidBad (JVal.jstr hw) = false := by
    simp only [hwidBad, beq_eq_false_iff_ne, ne_eq]
    intro h0
    exact hw1 (length_zero_eq_empty _ h0)
  have h5 : jsEqStr (JVal.jstr r.password) r.password = true := by
    simp [jsEqStr]
  have h6 : hwidBlank r.hwid = true := by
    rcases hhb with h | h
    · simp [h, hwidBlank]
    · simp [h, hwidBlank, jsTrim, emptyStr]
  have hreg := login_register_eq s true
    ⟨JVal.jstr r.username, JVal.jstr r.password, JVal.jstr hw⟩ r h1 h2 h3
    hfind h5 h6
  simp only [if_true] at hreg
  exact ⟨hreg, find?_setHwid s.users (JVal.jstr r.username) hw r hfind⟩

/-- C2 counterexample: the record `{username: "", password: "p1"}` has an
empty hwid, and the request carries its exact username and password and the
non-empty hwid `"DEV-1"`, yet the handler answers `MISSING_FIELDS` (the empty
username fails step 1) and registers nothing. -/
theorem first_login_registers_cex :
    login ⟨[⟨emptyStr, alicePass, none⟩]⟩ true
        ⟨JVal.jstr emptyStr, JVal.jstr alicePass, JVal.jstr dev1⟩
      = (Code.MISSING_FIELDS, ⟨[⟨emptyStr, alicePass, none⟩]⟩) ∧
    Code.MISSING_FIELDS ≠ Code.HWID_REGISTERED := by
  decide

/-- C2 witness: alice's first login with `DEV-1` registers it. -/
theorem first_login_registers_witness :
    login ⟨[⟨aliceName, alicePass, none⟩]⟩ true
        ⟨JVal.jstr aliceName, JVal.jstr alicePass, JVal.jstr dev1⟩
      = (Code.HWID_REGISTERED, ⟨[⟨aliceName, alicePass, some dev1⟩]⟩) := by
  have h := first_login_registers ⟨[⟨aliceName, alicePass, none⟩]⟩
    ⟨aliceName, alicePass, none⟩ dev1 (by simp) (by simp)
    (by decide) (by decide) (Or.inl rfl) (by decide)
  exact h.1.trans (by decide)

/-- C3: a request that reaches step 4 while the persist fails gets
`SERVER_ERROR` (not a success outcome), the durable store is unchanged, and
every subsequent request behaves exactly as if the failed request had never
happened — no partial registration is visible. -/
theorem persist_failure_server_error (s : Store) (req : LoginReq)
    (u : UserRecord)
    (h1 : truthy req.username = true) (h2 : truthy req.password = true)
    (h3 : hwidBad req.hwid = false)
    (h4 : s.users.find? (fun r => jsEqStr req.username r.username) = some u)
    (h5 : jsEqStr req.password u.password = true)
    (h6 : hwidBlank u.hwid = true) :
    login s false req = (Code.SERVER_ERROR, s) ∧
    (∀ (p' : Bool) (req' : LoginReq),
      login (login s false req).2 p' req' = login s p' req') ∧
    Code.SERVER_ERROR ≠ Code.HWID_REGISTERED ∧
    Code.SERVER_ERROR ≠ Code.OK := by
  have hreg := login_register_eq s false req u h1 h2 h3 h4 h5 h6
  simp only [Bool.false_eq_true, if_false] at hreg
  refine ⟨hreg, ?_, by decide, by decide⟩
  intro p' req'
  rw [hreg]

/-- C3 witness: a failed persist on alice's first login reports
`SERVER_ERROR` and leaves the store as it was. -/
theorem persist_failure_server_error_witness :
    login ⟨[⟨aliceName, alicePass, none⟩]⟩ false
        ⟨JVal.jstr aliceName, JVal.jstr alicePass, JVal.jstr dev1⟩
      = (Code.SERVER_ERROR, ⟨[⟨aliceName, alicePass, none⟩]⟩) :=
  (persist_failure_server_error ⟨[⟨aliceName, alicePass, none⟩]⟩
    ⟨JVal.jstr aliceName, JVal.jstr alicePass, JVal.jstr dev1⟩
    ⟨aliceName, alicePass, none⟩
    (by decide) (by decide) (by decide) (by decide) (by decide) (by decide)).1

/-- C4 (amended): over any sequence of login requests, each record's hwid is
written at most once, from blank (absent, empty, or whitespace-only) to
non-blank, its username and password never change, and a record whose hwid is
already non-blank is never altered by the login path. -/
theorem login_hwid_write_once (s : Store) (ops : List (Bool × LoginReq)) :
    List.Forall₂ (fun u v =>
      (hwidBlank u.hwid = false → v = u) ∧
      (v = u ∨ (hwidBlank u.hwid = true ∧ hwidBlank v.hwid = false ∧
        v.username = u.username ∧ v.password = u.password)))
      s.users (runLogins s ops).users :=
  runLogins_hwidStep s ops

/-- C4 counterexample: the stored hwid `" "` is a non-empty string, yet a
matching login overwrites it with `"DEV-1"` — the claim's "once a record's
hwid is a non-empty string, no login request alters it" fails on
whitespace-only values, which the code treats as unbound. -/
theorem login_hwid_write_once_cex :
    (login ⟨[⟨aliceName, alicePass, some blankStr⟩]⟩ true
        ⟨JVal.jstr aliceName, JVal.jstr alicePass, JVal.jstr dev1⟩).2
      = ⟨[⟨aliceName, alicePass, some dev1⟩]⟩ ∧
    blankStr ≠ emptyStr ∧ blankStr ≠ dev1 := by
  decide

/-- C5: whenever the outcome is `MISSING_FIELDS`, `HWID_REQUIRED`,
`INVALID_CREDENTIALS`, `HWID_MISMATCH` or `OK`, the store is returned
untouched; and a request answered `MISSING_FIELDS` gets that same answer
against every store and persist outcome — the store is never consulted. -/
theorem failure_frame (s : Store) (p : Bool) (req : LoginReq)
    (h : (login s p req).1 = Code.MISSING_FIELDS ∨
      (login s p req).1 = Code.HWID_REQUIRED ∨
      (login s p req).1 = Code.INVALID_CREDENTIALS ∨
      (login s p req).1 = Code.HWID_MISMATCH ∨
      (login s p req).1 = Code.OK) :
    (login s p req).2 = s ∧
    ((login s p req).1 = Code.MISSING_FIELDS →
      ∀ (s' : Store) (p' : Bool), login s' p' req = (Code.MISSING_FIELDS, s')) := by
  constructor
  · rcases login_store_cases s p req with h2 | ⟨hc, _⟩
    · exact h2
    · rw [hc] at h
      simp at h
  · intro hm s' p'
    exact login_missing_const req ((login_missing_iff s p req).mp hm) s' p'

/-- C5 witness: an unknown user gets `INVALID_CREDENTIALS` and the empty
store stays empty. -/
theorem failure_frame_witness :
    (login ⟨[]⟩ true
      ⟨JVal.jstr aliceName, JVal.jstr alicePass, JVal.jstr dev1⟩).2 = ⟨[]⟩ :=
  (failure_frame ⟨[]⟩ true
    ⟨JVal.jstr aliceName, JVal.jstr alicePass, JVal.jstr dev1⟩ (by decide)).1

/-- C6: an absent backing file loads as the empty store, an unparsable one
fails open to the same empty store without raising, and against an empty
store every request passing steps 1–2 is answered `INVALID_CREDENTIALS` with
no mutation. -/
theorem load_fail_open (p : Bool) (req : LoginReq)
    (h1 : truthy req.username = true) (h2 : truthy req.password = true)
    (h3 : hwidBad req.hwid = false) :
    loadUsers FileState.absent = emptyData ∧
    loadUsers FileState.corrupt = emptyData ∧
    usersOf emptyData = some [] ∧
    login ⟨[]⟩ p req = (Code.INVALID_CREDENTIALS, ⟨[]⟩) := by
  refine ⟨rfl, rfl, rfl, ?_⟩
  unfold login
  rw [if_neg (by simp [h1, h2]), if_neg (by simp [h3])]
  simp [List.find?]

/-- C6 witness: after a corrupt load, alice's valid-looking login is refused
as `INVALID_CREDENTIALS`. -/
theorem load_fail_open_witness :
    login ⟨[]⟩ true ⟨JVal.jstr aliceName, JVal.jstr alicePass, JVal.jstr dev1⟩
      = (Code.INVALID_CREDENTIALS, ⟨[]⟩) :=
  (load_fail_open true
    ⟨JVal.jstr aliceName, JVal.jstr alicePass, JVal.jstr dev1⟩
    (by decide) (by decide) (by decide)).2.2.2

/-- C7: a request whose outcome is `OK` leaves the store unchanged, and
repeating it any number of times (whatever each repetition's persist outcome)
keeps yielding `OK` against the same unchanged store. -/
theorem ok_idempotent (s : Store) (p : Bool) (req : LoginReq)
    (h : (login s p req).1 = Code.OK) :
    (∀ (n : Nat) (p' : Bool), iterateLogin p' req n s = s) ∧
    (∀ (p' : Bool), login s p' req = (Code.OK, s)) := by
  have key : ∀ p', login s p' req = (Code.OK, s) := login_ok_const s p req h
  refine ⟨?_, key⟩
  intro n
  induction n with
  | zero => intro p'; rfl
  | succ k ih =>
    intro p'
    show iterateLogin p' req k (login s p' req).2 = s
    rw [key p']
    exact ih p'

/-- C7 witness: alice bound to `DEV-1` logs in with `DEV-1` three times. -/
theorem ok_idempotent_witness :
    iterateLogin true ⟨JVal.jstr aliceName, JVal.jstr alicePass, JVal.jstr dev1⟩
        3 ⟨[⟨aliceName, alicePass, some dev1⟩]⟩
      = ⟨[⟨aliceName, alicePass, some dev1⟩]⟩ ∧
    login ⟨[⟨aliceName, alicePass, some dev1⟩]⟩ true
        ⟨JVal.jstr aliceName, JVal.jstr alicePass, JVal.jstr dev1⟩
      = (Code.OK, ⟨[⟨aliceName, alicePass, some dev1⟩]⟩) := by
  have h := ok_idempotent ⟨[⟨aliceName, alicePass, some dev1⟩]⟩ true
    ⟨JVal.jstr aliceName, JVal.jstr alicePass, JVal.jstr dev1⟩ (by decide)
  exact ⟨h.1 3 true, h.2 true⟩

/-- C9: a stored hwid that is non-empty but whitespace-only is treated as
unbound: a request with matching credentials and a valid hwid takes the
registration branch — `HWID_REGISTERED`, not `HWID_MISMATCH` — and the
stored value is overwritten with the supplied one. -/
theorem whitespace_hwid_rebinds (s : Store) (req : LoginReq) (u : UserRecord)
    (w : String)
    (h1 : truthy req.username = true) (h2 : truthy req.password = true)
    (h3 : hwidBad req.hwid = false)
    (h4 : s.users.find? (fun r => jsEqStr req.username r.username) = some u)
    (h5 : jsEqStr req.password u.password = true)
    (hw : u.hwid = some w) (_hne : w ≠ emptyStr) (htr : jsTrim w = emptyStr) :
    login s true req
        = (Code.HWID_REGISTERED, ⟨setHwid s.users req.username (asStr req.hwid)⟩) ∧
      (login s true req).1 ≠ Code.HWID_MISMATCH ∧
      (setHwid s.users req.username (asStr req.hwid)).find?
          (fun r => jsEqStr req.username r.username)
        = some { u with hwid := some (asStr req.hwid) } := by
  have h6 : hwidBlank u.hwid = true := by
    rw [hw]
    simp [hwidBlank, htr, emptyStr]
  have hreg := login_register_eq s true req u h1 h2 h3 h4 h5 h6
  simp only [if_true] at hreg
  refine ⟨hreg, ?_, find?_setHwid s.users req.username (asStr req.hwid) u h4⟩
  rw [hreg]
  simp

/-- C9 witness: alice's stored hwid `" "` is rebound to `DEV-1`. -/
theorem whitespace_hwid_rebinds_witness :
    login ⟨[⟨aliceName, alicePass, some blankStr⟩]⟩ true
        ⟨JVal.jstr aliceName, JVal.jstr alicePass, JVal.jstr dev1⟩
      = (Code.HWID_REGISTERED, ⟨[⟨aliceName, alicePass, some dev1⟩]⟩) := by
  have h := whitespace_hwid_rebinds ⟨[⟨aliceName, alicePass, some blankStr⟩]⟩
    ⟨JVal.jstr aliceName, JVal.jstr alicePass, JVal.jstr dev1⟩
    ⟨aliceName, alicePass, some blankStr⟩ blankStr
    (by decide) (by decide) (by decide) (by decide) (by decide)
    rfl (by decide) (by decide)
  exact h.1.trans (by decide)

/-- C10: the fail-open recovery covers only a file that fails to parse — a
file holding valid JSON without a top-level `users` array (an array, a
string, or an object lacking the key) is returned by `loadUsers` unchecked,
and the handler's step-3 lookup over `data.users` then throws instead of
producing any of the seven outcome codes; the recovered empty object, by
contrast, looks up fine. -/
theorem load_returns_unchecked (v : JVal) (h : usersOf v = none) :
    loadUsers (FileState.json v) = v ∧
    lookupStep (loadUsers (FileState.json v)) = Except.error () ∧
    (∀ (xs : List JVal), usersOf (JVal.jarr xs) = none) ∧
    (∀ (s : String), usersOf (JVal.jstr s) = none) ∧
    (∀ (fields : List (String × JVal)),
      lookupField fields usersKey = none → usersOf (JVal.jobj fields) = none) ∧
    lookupStep emptyData = Except.ok [] := by
  refine ⟨rfl, ?_, fun xs => rfl, fun s => rfl, ?_, rfl⟩
  · simp [lookupStep, loadUsers, h]
  · intro fields hf
    simp [usersOf, hf]

/-- C10 witness: a file whose content parses to the JSON array `[]` is
returned as-is and the step-3 lookup throws. -/
theorem load_returns_unchecked_witness :
    loadUsers (FileState.json (JVal.jarr [])) = JVal.jarr [] ∧
    lookupStep (loadUsers (FileState.json (JVal.jarr []))) = Except.error () := by
  have h := load_returns_unchecked (JVal.jarr []) rfl
  exact ⟨h.1, h.2.1⟩

end GlomAuth
